import Mathlib

/-!
Shallow embedding of the `ms-user` microservice core (Go), centered on
`services/keycloak_service.go` and the HTTP handlers, together with proofs of
the specified properties.

Modelling conventions:
* HTTP transport is a pure oracle `Client σ : σ → HttpRequest → σ × Except String HttpResponse`;
  the state `σ` lets mocks record traces or vary answers per call, and a
  transport-level failure of Go's `client.Do` is the `Except.error` case.
* Response bodies are either raw bytes that are not valid JSON (`Body.raw`) or
  a JSON document (`Body.json`).  Go's `encoding/json` unmarshalling into
  `map[string]interface{}`, `[]models.User`, `[]models.Group` and the struct
  types is modelled by the decode functions below, including Go's treatment of
  JSON `null` (leaves the zero value) and of missing fields.
* `fmt` verb `%v` on a decoded `map[string]interface{}` is modelled by
  `goFmtV`; `%s` on a body by `Body.text`.  (Go sorts map keys when printing;
  the concrete maps used below have at most one key, where the two agree.)
* Methods on `*KeycloakService` mutate `k.token`; they are embedded as
  functions returning the updated `KeycloakService` alongside the oracle state
  and the result.
-/

/-- JSON values, as decoded by Go's `encoding/json` into `interface{}`. -/
inductive Json where
  | null : Json
  | bool : Bool → Json
  | num : Int → Json
  | str : String → Json
  | arr : List Json → Json
  | obj : List (String × Json) → Json

/-- Bytes of an HTTP body: either not valid JSON, or a JSON document. -/
inductive Body where
  | raw : String → Body
  | json : Json → Body

mutual

/-- Rendering of a decoded JSON value by Go's `fmt` verb `%v`. -/
def goFmtV : Json → String
  | Json.null => "<nil>"
  | Json.bool b => if b then "true" else "false"
  | Json.num n => toString n
  | Json.str s => s
  | Json.arr xs => "[" ++ String.intercalate " " (goFmtVList xs) ++ "]"
  | Json.obj fs => "map[" ++ String.intercalate " " (goFmtVFields fs) ++ "]"

/-- Helper for `goFmtV` on array elements. -/
def goFmtVList : List Json → List String
  | [] => []
  | j :: js => goFmtV j :: goFmtVList js

/-- Helper for `goFmtV` on object fields. -/
def goFmtVFields : List (String × Json) → List String
  | [] => []
  | (key, v) :: fs => (key ++ ":" ++ goFmtV v) :: goFmtVFields fs

end

mutual

/-- Serialization of a JSON value back to bytes (for `%s` on a JSON body). -/
def jsonText : Json → String
  | Json.null => "null"
  | Json.bool b => if b then "true" else "false"
  | Json.num n => toString n
  | Json.str s => "\x22" ++ s ++ "\x22"
  | Json.arr xs => "[" ++ String.intercalate "," (jsonTextList xs) ++ "]"
  | Json.obj fs => "\x7b" ++ String.intercalate "," (jsonTextFields fs) ++ "\x7d"

/-- Helper for `jsonText` on array elements. -/
def jsonTextList : List Json → List String
  | [] => []
  | j :: js => jsonText j :: jsonTextList js

/-- Helper for `jsonText` on object fields. -/
def jsonTextFields : List (String × Json) → List String
  | [] => []
  | (key, v) :: fs => ("\x22" ++ key ++ "\x22:" ++ jsonText v) :: jsonTextFields fs

end

/-- Bytes of a body, as interpolated by Go's `%s`. -/
def Body.text : Body → String
  | Body.raw s => s
  | Body.json j => jsonText j

/-- Go `json.Unmarshal(body, &m)` for `m : map[string]interface{}`: succeeds on
a JSON object (and on JSON `null`, leaving the nil map); fails otherwise. -/
def unmarshalMap : Body → Option (List (String × Json))
  | Body.raw _ => none
  | Body.json (Json.obj fs) => some fs
  | Body.json Json.null => some []
  | Body.json _ => none

namespace Models

/-- Modelled from the spec: `models.User` is absent from the sources (only its
uses appear); per spec §3 and the OpenAPI schema, a User carries an opaque
backend-assigned identifier plus username, email, first and last name, all
strings, serialized under the JSON keys `id`, `username`, `email`,
`firstName`, `lastName`.  A missing identifier is Go's zero value `""`. -/
structure User where
  id : String
  username : String
  email : String
  firstName : String
  lastName : String
deriving DecidableEq

/-- Modelled from the spec: `models.Group` is absent from the sources; per spec
§3 and the OpenAPI schema it carries the JSON keys `id` and `name`. -/
structure Group where
  id : String
  name : String
deriving DecidableEq

/-- GroupWithUsers pairs a group with its member list (models/group_with_users.go). -/
structure GroupWithUsers where
  group : Group
  users : List Models.User
deriving DecidableEq

end Models

/-- Go unmarshalling of one JSON value into a string struct field: missing or
`null` leaves the zero value `""`; a non-string value is a decode error. -/
def decodeField (fs : List (String × Json)) (name : String) : Option String :=
  match List.lookup name fs with
  | none => some ""
  | some Json.null => some ""
  | some (Json.str s) => some s
  | some _ => none

/-- Go unmarshalling of one JSON value into `models.User`. -/
def decodeUser : Json → Option Models.User
  | Json.obj fs =>
    match decodeField fs "id", decodeField fs "username", decodeField fs "email",
          decodeField fs "firstName", decodeField fs "lastName" with
    | some i, some un, some em, some fn, some ln => some ⟨i, un, em, fn, ln⟩
    | _, _, _, _, _ => none
  | Json.null => some ⟨"", "", "", "", ""⟩
  | _ => none

/-- Go unmarshalling of a list of JSON values into `[]models.User` elements. -/
def decodeUserList : List Json → Option (List Models.User)
  | [] => some []
  | j :: js =>
    match decodeUser j, decodeUserList js with
    | some u, some us => some (u :: us)
    | _, _ => none

/-- Go `json.Unmarshal(body, &users)` for `users : []models.User`. -/
def unmarshalUsers : Body → Option (List Models.User)
  | Body.raw _ => none
  | Body.json (Json.arr xs) => decodeUserList xs
  | Body.json Json.null => some []
  | Body.json _ => none

/-- Go unmarshalling of one JSON value into `models.Group`. -/
def decodeGroup : Json → Option Models.Group
  | Json.obj fs =>
    match decodeField fs "id", decodeField fs "name" with
    | some i, some n => some ⟨i, n⟩
    | _, _ => none
  | Json.null => some ⟨"", ""⟩
  | _ => none

/-- Go unmarshalling of a list of JSON values into `[]models.Group` elements. -/
def decodeGroupList : List Json → Option (List Models.Group)
  | [] => some []
  | j :: js =>
    match decodeGroup j, decodeGroupList js with
    | some g, some gs => some (g :: gs)
    | _, _ => none

/-- Go `json.Unmarshal(body, &groups)` for `groups : []models.Group`. -/
def unmarshalGroups : Body → Option (List Models.Group)
  | Body.raw _ => none
  | Body.json (Json.arr xs) => decodeGroupList xs
  | Body.json Json.null => some []
  | Body.json _ => none

/-- Go `json.Marshal` of a `models.User` (all five fields as strings). -/
def encodeUser (u : Models.User) : Json :=
  Json.obj [("id", Json.str u.id), ("username", Json.str u.username),
            ("email", Json.str u.email), ("firstName", Json.str u.firstName),
            ("lastName", Json.str u.lastName)]

/-- Go `json.Marshal` of a `models.Group`. -/
def encodeGroup (g : Models.Group) : Json :=
  Json.obj [("id", Json.str g.id), ("name", Json.str g.name)]

/-- An outbound HTTP request (`http.Request`): method, URL, body, headers. -/
structure HttpRequest where
  method : String
  url : String
  body : Body
  headers : List (String × String)

/-- An HTTP response (`http.Response`): status code and body bytes. -/
structure HttpResponse where
  statusCode : Nat
  body : Body

/-- Go `req.Header.Set(name, value)`: replaces any existing value. -/
def HttpRequest.setHeader (req : HttpRequest) (name value : String) : HttpRequest :=
  { req with headers := (name, value) :: req.headers.filter (fun p => p.1 != name) }

/-- The HTTP transport (`http.Client.Do`) as a stateful oracle; the
`Except.error` case is a transport-level failure. -/
def Client (σ : Type) : Type :=
  σ → HttpRequest → σ × Except String HttpResponse

/-- Configuration of the service (config/config.go). -/
structure Config where
  keycloakURL : String
  keycloakRealm : String
  keycloakUsername : String
  keycloakPassword : String
deriving DecidableEq

/-- KeycloakService state: its configuration and the stored admin token.  The
`http.Client` is passed to each operation as the `Client σ` oracle. -/
structure KeycloakService where
  config : Config
  token : String
deriving DecidableEq

/-- URL of the token endpoint, per `getAdminToken`'s format string. -/
def Config.tokenUrl (c : Config) : String :=
  c.keycloakURL ++ "/realms/" ++ c.keycloakRealm ++ "/protocol/openid-connect/token"

/-- URL of the users collection, per `ListUsers`/`CreateUser`. -/
def Config.usersUrl (c : Config) : String :=
  c.keycloakURL ++ "/admin/realms/" ++ c.keycloakRealm ++ "/users"

/-- URL of one user, per `GetUser`/`UpdateUser`/`DeleteUser`. -/
def Config.userUrl (c : Config) (id : String) : String :=
  c.keycloakURL ++ "/admin/realms/" ++ c.keycloakRealm ++ "/users/" ++ id

/-- URL of the email search, per `SearchUserByEmail`. -/
def Config.searchUrl (c : Config) (email : String) : String :=
  c.keycloakURL ++ "/admin/realms/" ++ c.keycloakRealm ++ "/users?email=" ++ email

/-- URL of the groups collection, per `ListGroups`/`CreateGroup`. -/
def Config.groupsUrl (c : Config) : String :=
  c.keycloakURL ++ "/admin/realms/" ++ c.keycloakRealm ++ "/groups"

/-- URL of one group, per `GetGroup`/`UpdateGroup`/`DeleteGroup`. -/
def Config.groupUrl (c : Config) (id : String) : String :=
  c.keycloakURL ++ "/admin/realms/" ++ c.keycloakRealm ++ "/groups/" ++ id

/-- URL of a user's groups, per `ListUserGroups`. -/
def Config.userGroupsUrl (c : Config) (userID : String) : String :=
  c.keycloakURL ++ "/admin/realms/" ++ c.keycloakRealm ++ "/users/" ++ userID ++ "/groups"

/-- URL of one membership edge, per `AddUserToGroup`/`RemoveUserFromGroup`. -/
def Config.membershipUrl (c : Config) (userID groupID : String) : String :=
  c.keycloakURL ++ "/admin/realms/" ++ c.keycloakRealm ++ "/users/" ++ userID ++
    "/groups/" ++ groupID

/-- URL of a group's members, per `ListGroupUsers`. -/
def Config.groupMembersUrl (c : Config) (groupID : String) : String :=
  c.keycloakURL ++ "/admin/realms/" ++ c.keycloakRealm ++ "/groups/" ++ groupID ++ "/members"

/-- Embedding of `getAdminToken` (keycloak_service.go:70-102): POST the
password-grant form to the token endpoint; require status 200; decode the JSON
body and extract the string field `access_token`.  Does not touch `k.token`. -/
def KeycloakService.getAdminToken {σ : Type} (client : Client σ) (k : KeycloakService) (s : σ) :
    σ × Except String String :=
  let data := "grant_type=password&client_id=admin-cli&username=" ++
    k.config.keycloakUsername ++ "&password=" ++ k.config.keycloakPassword
  let req : HttpRequest :=
    ⟨"POST", k.config.tokenUrl, Body.raw data,
      [("Content-Type", "application/x-www-form-urlencoded")]⟩
  match client s req with
  | (s1, Except.error e) => (s1, Except.error e)
  | (s1, Except.ok resp) =>
    if resp.statusCode ≠ 200 then
      (s1, Except.error ("failed to get token, status: " ++ toString resp.statusCode ++
        ", response: " ++ resp.body.text ++ " " ++ k.config.keycloakUsername))
    else
      match unmarshalMap resp.body with
      | none => (s1, Except.error "json decode error")
      | some result =>
        match List.lookup "access_token" result with
        | some (Json.str t) => (s1, Except.ok t)
        | _ => (s1, Except.error "access token not found")

/-- Embedding of `doRequest` (keycloak_service.go:46-65): attach the stored
token as bearer credential and perform the call; on a 401 response refresh the
token via `getAdminToken`, store it, reattach it, and retry exactly once,
returning the second outcome as-is.  The returned `KeycloakService` carries the
possibly-updated token field. -/
def KeycloakService.doRequest {σ : Type} (client : Client σ) (k : KeycloakService) (s : σ)
    (req : HttpRequest) : KeycloakService × σ × Except String HttpResponse :=
  let req1 := req.setHeader "Authorization" ("Bearer " ++ k.token)
  match client s req1 with
  | (s1, Except.error e) => (k, s1, Except.error e)
  | (s1, Except.ok resp) =>
    if resp.statusCode = 401 then
      match getAdminToken client k s1 with
      | (s2, Except.error e) => (k, s2, Except.error ("failed to refresh token: " ++ e))
      | (s2, Except.ok newToken) =>
        let k2 : KeycloakService := { k with token := newToken }
        let req2 := req1.setHeader "Authorization" ("Bearer " ++ k2.token)
        (k2, client s2 req2)
    else (k, s1, Except.ok resp)

/-- Embedding of `NewKeycloakService` (keycloak_service.go:26-38): build the
service, eagerly fetch an initial admin token, and store whatever string came
back — on failure `getAdminToken` returned `""`, the error is only logged, and
the service is returned regardless. -/
def NewKeycloakService {σ : Type} (client : Client σ) (cfg : Config) (s : σ) :
    KeycloakService × σ :=
  let k0 : KeycloakService := ⟨cfg, ""⟩
  match KeycloakService.getAdminToken client k0 s with
  | (s1, Except.ok t) => (⟨cfg, t⟩, s1)
  | (s1, Except.error _) => (⟨cfg, ""⟩, s1)

/-- Embedding of `ListUsers` (keycloak_service.go:109-143). -/
def KeycloakService.ListUsers {σ : Type} (client : Client σ) (k : KeycloakService) (s : σ) :
    KeycloakService × σ × Except String (List Models.User) :=
  let req : HttpRequest := ⟨"GET", k.config.usersUrl, Body.raw "", []⟩
  match doRequest client k s req with
  | (k1, s1, Except.error e) => (k1, s1, Except.error e)
  | (k1, s1, Except.ok resp) =>
    if resp.statusCode ≠ 200 then
      match unmarshalMap resp.body with
      | none => (k1, s1, Except.error ("failed to list users: status " ++
          toString resp.statusCode ++ ", unable to parse error"))
      | some errResp => (k1, s1, Except.error ("failed to list users: " ++
          goFmtV (Json.obj errResp)))
    else
      match unmarshalUsers resp.body with
      | none => (k1, s1, Except.error "json: unmarshal error")
      | some users => (k1, s1, Except.ok users)

/-- Embedding of `CreateUser` (keycloak_service.go:148-173): POST the marshalled
user; accept 201 or 204; on success return the input user unchanged. -/
def KeycloakService.CreateUser {σ : Type} (client : Client σ) (k : KeycloakService) (s : σ)
    (user : Models.User) : KeycloakService × σ × Except String Models.User :=
  let req : HttpRequest :=
    ⟨"POST", k.config.usersUrl, Body.json (encodeUser user),
      [("Content-Type", "application/json")]⟩
  match doRequest client k s req with
  | (k1, s1, Except.error e) => (k1, s1, Except.error e)
  | (k1, s1, Except.ok resp) =>
    if resp.statusCode ≠ 201 ∧ resp.statusCode ≠ 204 then
      (k1, s1, Except.error ("failed to create user, status: " ++
        toString resp.statusCode ++ ", response: " ++ resp.body.text))
    else (k1, s1, Except.ok user)

/-- Embedding of `GetUser` (keycloak_service.go:178-199): on any non-200 status
return a status-only error without reading the body; on 200 decode the body. -/
def KeycloakService.GetUser {σ : Type} (client : Client σ) (k : KeycloakService) (s : σ)
    (id : String) : KeycloakService × σ × Except String Models.User :=
  let req : HttpRequest := ⟨"GET", k.config.userUrl id, Body.raw "", []⟩
  match doRequest client k s req with
  | (k1, s1, Except.error e) => (k1, s1, Except.error e)
  | (k1, s1, Except.ok resp) =>
    if resp.statusCode ≠ 200 then
      (k1, s1, Except.error ("user not found, status: " ++ toString resp.statusCode))
    else
      match resp.body with
      | Body.json j =>
        match decodeUser j with
        | some user => (k1, s1, Except.ok user)
        | none => (k1, s1, Except.error "json decode error")
      | Body.raw _ => (k1, s1, Except.error "json decode error")

/-- Embedding of `SearchUserByEmail` (keycloak_service.go:204-238). -/
def KeycloakService.SearchUserByEmail {σ : Type} (client : Client σ) (k : KeycloakService) (s : σ)
    (email : String) : KeycloakService × σ × Except String (List Models.User) :=
  let req : HttpRequest := ⟨"GET", k.config.searchUrl email, Body.raw "", []⟩
  match doRequest client k s req with
  | (k1, s1, Except.error e) => (k1, s1, Except.error e)
  | (k1, s1, Except.ok resp) =>
    if resp.statusCode ≠ 200 then
      match unmarshalMap resp.body with
      | none => (k1, s1, Except.error ("failed to search users: status " ++
          toString resp.statusCode ++ ", unable to parse error"))
      | some errResp => (k1, s1, Except.error ("failed to search users: " ++
          goFmtV (Json.obj errResp)))
    else
      match unmarshalUsers resp.body with
      | none => (k1, s1, Except.error "json: unmarshal error")
      | some users => (k1, s1, Except.ok users)

/-- Embedding of `UpdateUser` (keycloak_service.go:243-266): PUT the marshalled
user; only status 204 is success; on success return the input user. -/
def KeycloakService.UpdateUser {σ : Type} (client : Client σ) (k : KeycloakService) (s : σ)
    (id : String) (user : Models.User) : KeycloakService × σ × Except String Models.User :=
  let req : HttpRequest :=
    ⟨"PUT", k.config.userUrl id, Body.json (encodeUser user),
      [("Content-Type", "application/json")]⟩
  match doRequest client k s req with
  | (k1, s1, Except.error e) => (k1, s1, Except.error e)
  | (k1, s1, Except.ok resp) =>
    if resp.statusCode ≠ 204 then
      (k1, s1, Except.error ("failed to update user, status: " ++
        toString resp.statusCode ++ ", response: " ++ resp.body.text))
    else (k1, s1, Except.ok user)

/-- Embedding of `DeleteUser` (keycloak_service.go:271-289). -/
def KeycloakService.DeleteUser {σ : Type} (client : Client σ) (k : KeycloakService) (s : σ)
    (id : String) : KeycloakService × σ × Except String Unit :=
  let req : HttpRequest := ⟨"DELETE", k.config.userUrl id, Body.raw "", []⟩
  match doRequest client k s req with
  | (k1, s1, Except.error e) => (k1, s1, Except.error e)
  | (k1, s1, Except.ok resp) =>
    if resp.statusCode ≠ 204 then
      (k1, s1, Except.error ("failed to delete user, status: " ++
        toString resp.statusCode ++ ", response: " ++ resp.body.text))
    else (k1, s1, Except.ok ())

/-- Embedding of `ListGroups` (keycloak_service.go:318-351). -/
def KeycloakService.ListGroups {σ : Type} (client : Client σ) (k : KeycloakService) (s : σ) :
    KeycloakService × σ × Except String (List Models.Group) :=
  let req : HttpRequest := ⟨"GET", k.config.groupsUrl, Body.raw "", []⟩
  match doRequest client k s req with
  | (k1, s1, Except.error e) => (k1, s1, Except.error e)
  | (k1, s1, Except.ok resp) =>
    if resp.statusCode ≠ 200 then
      match unmarshalMap resp.body with
      | none => (k1, s1, Except.error ("failed to list groups: status " ++
          toString resp.statusCode ++ ", unable to parse error"))
      | some errResp => (k1, s1, Except.error ("failed to list groups: " ++
          goFmtV (Json.obj errResp)))
    else
      match unmarshalGroups resp.body with
      | none => (k1, s1, Except.error "json: unmarshal error")
      | some groups => (k1, s1, Except.ok groups)

/-- Embedding of `ListGroupUsers` (keycloak_service.go:566-598). -/
def KeycloakService.ListGroupUsers {σ : Type} (client : Client σ) (k : KeycloakService) (s : σ)
    (groupID : String) : KeycloakService × σ × Except String (List Models.User) :=
  let req : HttpRequest := ⟨"GET", k.config.groupMembersUrl groupID, Body.raw "", []⟩
  match doRequest client k s req with
  | (k1, s1, Except.error e) => (k1, s1, Except.error e)
  | (k1, s1, Except.ok resp) =>
    if resp.statusCode ≠ 200 then
      match unmarshalMap resp.body with
      | none => (k1, s1, Except.error ("failed to list group users: status " ++
          toString resp.statusCode ++ ", unable to parse error"))
      | some errResp => (k1, s1, Except.error ("failed to list group users: " ++
          goFmtV (Json.obj errResp)))
    else
      match unmarshalUsers resp.body with
      | none => (k1, s1, Except.error "json: unmarshal error")
      | some users => (k1, s1, Except.ok users)

/-- Loop body of `ListGroupsWithUsers` (keycloak_service.go:301-311): for each
group in listing order fetch its members, appending to the accumulator; abort
on the first failure with an error naming the failing group's identifier. -/
def KeycloakService.groupsWithUsersLoop {σ : Type} (client : Client σ) (k : KeycloakService) (s : σ) :
    List Models.Group → List Models.GroupWithUsers →
    KeycloakService × σ × Except String (List Models.GroupWithUsers)
  | [], acc => (k, s, Except.ok acc)
  | g :: rest, acc =>
    match ListGroupUsers client k s g.id with
    | (k1, s1, Except.error e) =>
      (k1, s1, Except.error ("failed to get users for group " ++ g.id ++ ": " ++ e))
    | (k1, s1, Except.ok users) =>
      groupsWithUsersLoop client k1 s1 rest (acc ++ [⟨g, users⟩])

/-- Embedding of `ListGroupsWithUsers` (keycloak_service.go:295-313): list all
groups, then sequentially fetch each group's members in listing order. -/
def KeycloakService.ListGroupsWithUsers {σ : Type} (client : Client σ) (k : KeycloakService) (s : σ) :
    KeycloakService × σ × Except String (List Models.GroupWithUsers) :=
  match ListGroups client k s with
  | (k1, s1, Except.error e) => (k1, s1, Except.error e)
  | (k1, s1, Except.ok groups) => groupsWithUsersLoop client k1 s1 groups []

/-- Embedding of `CreateGroup` (keycloak_service.go:356-379). -/
def KeycloakService.CreateGroup {σ : Type} (client : Client σ) (k : KeycloakService) (s : σ)
    (group : Models.Group) : KeycloakService × σ × Except String Models.Group :=
  let req : HttpRequest :=
    ⟨"POST", k.config.groupsUrl, Body.json (encodeGroup group),
      [("Content-Type", "application/json")]⟩
  match doRequest client k s req with
  | (k1, s1, Except.error e) => (k1, s1, Except.error e)
  | (k1, s1, Except.ok resp) =>
    if resp.statusCode ≠ 201 ∧ resp.statusCode ≠ 204 then
      (k1, s1, Except.error ("failed to create group, status: " ++
        toString resp.statusCode ++ ", response: " ++ resp.body.text))
    else (k1, s1, Except.ok group)

/-- Embedding of `GetGroup` (keycloak_service.go:384-405): on any non-200
status return a status-only error without reading the body. -/
def KeycloakService.GetGroup {σ : Type} (client : Client σ) (k : KeycloakService) (s : σ)
    (id : String) : KeycloakService × σ × Except String Models.Group :=
  let req : HttpRequest := ⟨"GET", k.config.groupUrl id, Body.raw "", []⟩
  match doRequest client k s req with
  | (k1, s1, Except.error e) => (k1, s1, Except.error e)
  | (k1, s1, Except.ok resp) =>
    if resp.statusCode ≠ 200 then
      (k1, s1, Except.error ("group not found, status: " ++ toString resp.statusCode))
    else
      match resp.body with
      | Body.json j =>
        match decodeGroup j with
        | some group => (k1, s1, Except.ok group)
        | none => (k1, s1, Except.error "json decode error")
      | Body.raw _ => (k1, s1, Except.error "json decode error")

/-- Embedding of `UpdateGroup` (keycloak_service.go:410-433): only 204 is
accepted as success. -/
def KeycloakService.UpdateGroup {σ : Type} (client : Client σ) (k : KeycloakService) (s : σ)
    (id : String) (group : Models.Group) : KeycloakService × σ × Except String Models.Group :=
  let req : HttpRequest :=
    ⟨"PUT", k.config.groupUrl id, Body.json (encodeGroup group),
      [("Content-Type", "application/json")]⟩
  match doRequest client k s req with
  | (k1, s1, Except.error e) => (k1, s1, Except.error e)
  | (k1, s1, Except.ok resp) =>
    if resp.statusCode ≠ 204 then
      (k1, s1, Except.error ("failed to update group, status: " ++
        toString resp.statusCode ++ ", response: " ++ resp.body.text))
    else (k1, s1, Except.ok group)

/-- Embedding of `AddUserToGroup` (keycloak_service.go:500-518): PUT the
membership edge; only 204 is success. -/
def KeycloakService.AddUserToGroup {σ : Type} (client : Client σ) (k : KeycloakService) (s : σ)
    (userID groupID : String) : KeycloakService × σ × Except String Unit :=
  let req : HttpRequest := ⟨"PUT", k.config.membershipUrl userID groupID, Body.raw "", []⟩
  match doRequest client k s req with
  | (k1, s1, Except.error e) => (k1, s1, Except.error e)
  | (k1, s1, Except.ok resp) =>
    if resp.statusCode ≠ 204 then
      (k1, s1, Except.error ("failed to add user to group, status: " ++
        toString resp.statusCode ++ ", response: " ++ resp.body.text))
    else (k1, s1, Except.ok ())

/-- Embedding of `AddUserToGroupByEmail` (keycloak_service.go:524-538): search
by email; zero matches and more than one match are errors; with a sole match
delegate to `AddUserToGroup` on that user's identifier. -/
def KeycloakService.AddUserToGroupByEmail {σ : Type} (client : Client σ) (k : KeycloakService) (s : σ)
    (email groupID : String) : KeycloakService × σ × Except String Unit :=
  match SearchUserByEmail client k s email with
  | (k1, s1, Except.error e) =>
    (k1, s1, Except.error ("error searching user by email: " ++ e))
  | (k1, s1, Except.ok users) =>
    match users with
    | [] => (k1, s1, Except.error "no user found with the provided email")
    | [u] => AddUserToGroup client k1 s1 u.id groupID
    | _ :: _ :: _ => (k1, s1, Except.error "multiple users found with the provided email")

/-- Outcome of a handler: the JSON document written by `c.JSON`. -/
inductive HOut where
  | errMsg : String → HOut
  | userOut : Models.User → HOut
  | usersOut : List Models.User → HOut
  | groupOut : Models.Group → HOut
  | groupsOut : List Models.Group → HOut
  | nilOut : HOut
deriving DecidableEq

/-- Embedding of `UserHandler.GetUser` (user_handler.go): any service error is
answered with status 404; success with 200 and the user. -/
def UserHandler.GetUser {σ : Type} (client : Client σ) (k : KeycloakService) (s : σ)
    (id : String) : KeycloakService × σ × Nat × HOut :=
  match KeycloakService.GetUser client k s id with
  | (k1, s1, Except.error e) => (k1, s1, 404, HOut.errMsg e)
  | (k1, s1, Except.ok user) => (k1, s1, 200, HOut.userOut user)

/-- Embedding of `GroupHandler.GetGroup` (group_handler.go:77-86): any service
error is answered with status 404; success with 200 and the group. -/
def GroupHandler.GetGroup {σ : Type} (client : Client σ) (k : KeycloakService) (s : σ)
    (id : String) : KeycloakService × σ × Nat × HOut :=
  match KeycloakService.GetGroup client k s id with
  | (k1, s1, Except.error e) => (k1, s1, 404, HOut.errMsg e)
  | (k1, s1, Except.ok group) => (k1, s1, 200, HOut.groupOut group)

/-- Embedding of `UserHandler.ListUsers` (user_handler.go): any service error is
answered with status 500; success with 200 and the list. -/
def UserHandler.ListUsers {σ : Type} (client : Client σ) (k : KeycloakService) (s : σ) :
    KeycloakService × σ × Nat × HOut :=
  match KeycloakService.ListUsers client k s with
  | (k1, s1, Except.error e) => (k1, s1, 500, HOut.errMsg e)
  | (k1, s1, Except.ok users) => (k1, s1, 200, HOut.usersOut users)

/-- Embedding of the service-call part of `UserHandler.CreateUser`
(user_handler.go), after JSON binding succeeded: any service error is answered
with status 500; success with 201 and the created user. -/
def UserHandler.CreateUser {σ : Type} (client : Client σ) (k : KeycloakService) (s : σ)
    (user : Models.User) : KeycloakService × σ × Nat × HOut :=
  match KeycloakService.CreateUser client k s user with
  | (k1, s1, Except.error e) => (k1, s1, 500, HOut.errMsg e)
  | (k1, s1, Except.ok created) => (k1, s1, 201, HOut.userOut created)

/-- Embedding of `UserHandler.SearchUserByEmail` (user_handler.go): a missing
email query parameter is answered 400 before any service call; a service error
with 500; success with 200 and the matches. -/
def UserHandler.SearchUserByEmail {σ : Type} (client : Client σ) (k : KeycloakService)
    (s : σ) (email : String) : KeycloakService × σ × Nat × HOut :=
  if email = "" then (k, s, 400, HOut.errMsg "email query parameter is required")
  else
    match KeycloakService.SearchUserByEmail client k s email with
    | (k1, s1, Except.error e) => (k1, s1, 500, HOut.errMsg e)
    | (k1, s1, Except.ok users) => (k1, s1, 200, HOut.usersOut users)

/-- Embedding of `MembershipHandler.AddUserToGroupByEmail` (membership handler,
the one wired to the by-email route in cmd/app/main.go): missing path
parameters are answered 400; a search failure 500; zero matches 404; several
matches 400; a failing membership call 500; success 204 with a nil body. -/
def MembershipHandler.AddUserToGroupByEmail {σ : Type} (client : Client σ)
    (k : KeycloakService) (s : σ) (email groupID : String) :
    KeycloakService × σ × Nat × HOut :=
  if email = "" ∨ groupID = "" then
    (k, s, 400, HOut.errMsg "email and groupId are required")
  else
    match KeycloakService.SearchUserByEmail client k s email with
    | (k1, s1, Except.error e) => (k1, s1, 500, HOut.errMsg e)
    | (k1, s1, Except.ok users) =>
      match users with
      | [] => (k1, s1, 404, HOut.errMsg "no user found with the provided email")
      | [u] =>
        match KeycloakService.AddUserToGroup client k1 s1 u.id groupID with
        | (k2, s2, Except.error e) => (k2, s2, 500, HOut.errMsg e)
        | (k2, s2, Except.ok _) => (k2, s2, 204, HOut.nilOut)
      | _ :: _ :: _ =>
        (k1, s1, 400, HOut.errMsg "multiple users found with the provided email")

/-- Concrete configuration used by the mock backends. -/
def cfg0 : Config := ⟨"http://kc", "master", "admin", "admin"⟩

/-- Body of a successful token-endpoint answer carrying `access_token`. -/
def tokenBody : Body :=
  Body.json (Json.obj [("access_token", Json.str "fresh-token")])

/-- Trace-recording mock backend whose token endpoint succeeds and whose every
other answer is 401 Unauthorized. -/
def mockAlways401 : Client (List HttpRequest) := fun s req =>
  if req.url = cfg0.tokenUrl then (s ++ [req], Except.ok ⟨200, tokenBody⟩)
  else (s ++ [req], Except.ok ⟨401, Body.raw ""⟩)

/-- Trace-recording mock backend whose token endpoint succeeds, whose first
resource answer is 401, and whose later resource answers are 200. -/
def mockFirst401 : Client (List HttpRequest) := fun s req =>
  if req.url = cfg0.tokenUrl then (s ++ [req], Except.ok ⟨200, tokenBody⟩)
  else if s.countP (fun r => r.url != cfg0.tokenUrl) = 0 then
    (s ++ [req], Except.ok ⟨401, Body.raw ""⟩)
  else (s ++ [req], Except.ok ⟨200, Body.raw "done"⟩)

/-- The token request `getAdminToken` builds for a given configuration. -/
def adminTokenReq (cfg : Config) : HttpRequest :=
  ⟨"POST", cfg.tokenUrl,
    Body.raw ("grant_type=password&client_id=admin-cli&username=" ++
      cfg.keycloakUsername ++ "&password=" ++ cfg.keycloakPassword),
    [("Content-Type", "application/x-www-form-urlencoded")]⟩

@[simp]
theorem url_setHeader (req : HttpRequest) (n v : String) :
    (req.setHeader n v).url = req.url := rfl

@[simp]
theorem method_setHeader (req : HttpRequest) (n v : String) :
    (req.setHeader n v).method = req.method := rfl

/-- C1: if the first backend response has status 401, `doRequest` refreshes the
admin token and retries the request exactly once, returning the second response
as-is; against a backend answering 401 to every resource call it issues exactly
two backend calls (the trace holds three requests in all: initial try, one
token call, one retry) and returns the second 401 response. -/
theorem doRequest_retries_once_on_401 :
    ∀ (req : HttpRequest) (k : KeycloakService),
      (∀ (σ : Type) (client : Client σ) (s s1 s2 : σ) (resp : HttpResponse) (t : String),
        client s (req.setHeader "Authorization" ("Bearer " ++ k.token)) =
          (s1, Except.ok resp) →
        resp.statusCode = 401 →
        KeycloakService.getAdminToken client k s1 = (s2, Except.ok t) →
        KeycloakService.doRequest client k s req =
          (⟨k.config, t⟩,
           client s2 ((req.setHeader "Authorization" ("Bearer " ++ k.token)).setHeader
             "Authorization" ("Bearer " ++ t))))
      ∧ (req.url ≠ cfg0.tokenUrl →
          (KeycloakService.doRequest mockAlways401 ⟨cfg0, k.token⟩ [] req).2.2 =
              Except.ok ⟨401, Body.raw ""⟩
          ∧ (KeycloakService.doRequest mockAlways401 ⟨cfg0, k.token⟩ [] req).2.1.length = 3
          ∧ ((KeycloakService.doRequest mockAlways401 ⟨cfg0, k.token⟩ [] req).2.1.filter
              (fun r => r.url == req.url)).length = 2) := by
  intro req k
  constructor
  · intro σ client s s1 s2 resp t h1 h2 h3
    simp [KeycloakService.doRequest, h1, h2, h3]
  · intro h
    have h2 : cfg0.tokenUrl ≠ req.url := fun hh => h hh.symm
    refine ⟨?_, ?_, ?_⟩ <;>
      simp [KeycloakService.doRequest, KeycloakService.getAdminToken, mockAlways401,
        unmarshalMap, tokenBody, h, h2]

/-- Witness for C1 at a concrete GET request and initial token. -/
theorem doRequest_retries_once_on_401_witness :
    (KeycloakService.doRequest mockAlways401 ⟨cfg0, "t0"⟩ []
        ⟨"GET", cfg0.usersUrl, Body.raw "", []⟩).2.2 = Except.ok ⟨401, Body.raw ""⟩
    ∧ (KeycloakService.doRequest mockAlways401 ⟨cfg0, "t0"⟩ []
        ⟨"GET", cfg0.usersUrl, Body.raw "", []⟩).2.1.length = 3
    ∧ ((KeycloakService.doRequest mockAlways401 ⟨cfg0, "t0"⟩ []
        ⟨"GET", cfg0.usersUrl, Body.raw "", []⟩).2.1.filter
        (fun r => r.url == (⟨"GET", cfg0.usersUrl, Body.raw "", []⟩ : HttpRequest).url)).length = 2 :=
  (doRequest_retries_once_on_401 ⟨"GET", cfg0.usersUrl, Body.raw "", []⟩ ⟨cfg0, "t0"⟩).2
    (by decide)

/-- C2: against a backend that answers 401 to the first resource call under any
stored token and success to the second, `doRequest` returns the success
response; afterwards the stored token equals the freshly acquired token
`"fresh-token"`, which is also the bearer credential attached to the retried
request (the last request of the trace). -/
theorem doRequest_refresh_updates_token :
    ∀ (req : HttpRequest) (t : String), req.url ≠ cfg0.tokenUrl →
      KeycloakService.doRequest mockFirst401 ⟨cfg0, t⟩ [] req =
        (⟨cfg0, "fresh-token"⟩,
         [req.setHeader "Authorization" ("Bearer " ++ t), adminTokenReq cfg0,
          (req.setHeader "Authorization" ("Bearer " ++ t)).setHeader
            "Authorization" "Bearer fresh-token"],
         Except.ok ⟨200, Body.raw "done"⟩)
      ∧ List.lookup "Authorization"
          ((req.setHeader "Authorization" ("Bearer " ++ t)).setHeader
            "Authorization" "Bearer fresh-token").headers = some "Bearer fresh-token" := by
  intro req t h
  have h2 : cfg0.tokenUrl ≠ req.url := fun hh => h hh.symm
  constructor
  · simp [KeycloakService.doRequest, KeycloakService.getAdminToken, mockFirst401,
      unmarshalMap, tokenBody, adminTokenReq, h, h2]
  · simp [HttpRequest.setHeader]

/-- Witness for C2 at a concrete GET request and initial token. -/
theorem doRequest_refresh_updates_token_witness :
    KeycloakService.doRequest mockFirst401 ⟨cfg0, "t0"⟩ []
        ⟨"GET", cfg0.usersUrl, Body.raw "", []⟩ =
      (⟨cfg0, "fresh-token"⟩,
       [HttpRequest.setHeader ⟨"GET", cfg0.usersUrl, Body.raw "", []⟩
          "Authorization" ("Bearer " ++ "t0"), adminTokenReq cfg0,
        (HttpRequest.setHeader ⟨"GET", cfg0.usersUrl, Body.raw "", []⟩
          "Authorization" ("Bearer " ++ "t0")).setHeader
          "Authorization" "Bearer fresh-token"],
       Except.ok ⟨200, Body.raw "done"⟩)
    ∧ List.lookup "Authorization"
        ((HttpRequest.setHeader ⟨"GET", cfg0.usersUrl, Body.raw "", []⟩
          "Authorization" ("Bearer " ++ "t0")).setHeader
          "Authorization" "Bearer fresh-token").headers = some "Bearer fresh-token" :=
  doRequest_refresh_updates_token ⟨"GET", cfg0.usersUrl, Body.raw "", []⟩ "t0" (by decide)

/-- C9: `doRequest` changes the stored token only when the first response has
status 401 and the subsequent token acquisition succeeds (then the stored token
becomes the acquired one); on a transport failure of the first call, on any
non-401 status, and on a failed acquisition the service state is unchanged. -/
theorem doRequest_token_frame :
    ∀ (σ : Type) (client : Client σ) (k : KeycloakService) (s : σ) (req : HttpRequest),
      (∀ s1 e, client s (req.setHeader "Authorization" ("Bearer " ++ k.token)) =
          (s1, Except.error e) →
        (KeycloakService.doRequest client k s req).1 = k)
      ∧ (∀ s1 resp, client s (req.setHeader "Authorization" ("Bearer " ++ k.token)) =
          (s1, Except.ok resp) → resp.statusCode ≠ 401 →
        (KeycloakService.doRequest client k s req).1 = k)
      ∧ (∀ s1 resp, client s (req.setHeader "Authorization" ("Bearer " ++ k.token)) =
          (s1, Except.ok resp) → resp.statusCode = 401 →
          (∀ s2 e, KeycloakService.getAdminToken client k s1 = (s2, Except.error e) →
            (KeycloakService.doRequest client k s req).1 = k)
          ∧ (∀ s2 t, KeycloakService.getAdminToken client k s1 = (s2, Except.ok t) →
            (KeycloakService.doRequest client k s req).1 = ⟨k.config, t⟩)) := by
  intro σ client k s req
  refine ⟨?_, ?_, ?_⟩
  · intro s1 e h1
    simp [KeycloakService.doRequest, h1]
  · intro s1 resp h1 h2
    simp [KeycloakService.doRequest, h1, h2]
  · intro s1 resp h1 h2
    constructor
    · intro s2 e h3
      simp [KeycloakService.doRequest, h1, h2, h3]
    · intro s2 t h3
      simp [KeycloakService.doRequest, h1, h2, h3]

/-- Witness for C9: a transport failure on the first call leaves the service,
and hence its stored token, unchanged. -/
theorem doRequest_token_frame_witness :
    (KeycloakService.doRequest (fun (s : Unit) (_ : HttpRequest) => (s, Except.error "dial tcp: refused"))
        ⟨cfg0, "t0"⟩ () ⟨"GET", cfg0.usersUrl, Body.raw "", []⟩).1 = ⟨cfg0, "t0"⟩ :=
  (doRequest_token_frame Unit
    (fun (s : Unit) (_ : HttpRequest) => (s, Except.error "dial tcp: refused"))
    ⟨cfg0, "t0"⟩ () ⟨"GET", cfg0.usersUrl, Body.raw "", []⟩).1 () "dial tcp: refused" rfl

/-- C10: `NewKeycloakService` is total over every transport outcome: it always
returns a service holding the given configuration; when the eager initial
token acquisition errors the stored token is the empty string, and when it
succeeds the stored token is the acquired one. -/
theorem newKeycloakService_never_fails :
    ∀ (σ : Type) (client : Client σ) (cfg : Config) (s : σ),
      (NewKeycloakService client cfg s).1.config = cfg
      ∧ (∀ s1 e, KeycloakService.getAdminToken client ⟨cfg, ""⟩ s = (s1, Except.error e) →
          (NewKeycloakService client cfg s).1.token = "")
      ∧ (∀ s1 t, KeycloakService.getAdminToken client ⟨cfg, ""⟩ s = (s1, Except.ok t) →
          (NewKeycloakService client cfg s).1.token = t) := by
  intro σ client cfg s
  refine ⟨?_, ?_, ?_⟩
  · unfold NewKeycloakService
    rcases h : KeycloakService.getAdminToken client ⟨cfg, ""⟩ s with ⟨s1, r⟩
    cases r <;> simp [h]
  · intro s1 e h
    simp [NewKeycloakService, h]
  · intro s1 t h
    simp [NewKeycloakService, h]

/-- Witness for C10: with an unreachable token endpoint the constructor still
returns a service, whose stored token is the empty string. -/
theorem newKeycloakService_never_fails_witness :
    (NewKeycloakService (fun (s : Unit) (_ : HttpRequest) => (s, Except.error "dial tcp: refused"))
        cfg0 ()).1.config = cfg0
    ∧ (NewKeycloakService (fun (s : Unit) (_ : HttpRequest) => (s, Except.error "dial tcp: refused"))
        cfg0 ()).1.token = "" :=
  ⟨(newKeycloakService_never_fails Unit
      (fun (s : Unit) (_ : HttpRequest) => (s, Except.error "dial tcp: refused")) cfg0 ()).1,
   (newKeycloakService_never_fails Unit
      (fun (s : Unit) (_ : HttpRequest) => (s, Except.error "dial tcp: refused")) cfg0 ()).2.1
      () "dial tcp: refused" rfl⟩

/-- Mock backend answering the token endpoint (the only POST in the update
flows) with a fresh token and every other request with a fixed status. -/
def mockStatus (st : Nat) : Client Unit := fun s req =>
  if req.method = "POST" then (s, Except.ok ⟨200, tokenBody⟩)
  else (s, Except.ok ⟨st, Body.raw ""⟩)

/-- C5: `UpdateUser` and `UpdateGroup` succeed exactly when the backend status
is 204 No Content; in particular a 200 OK response is a failure. -/
theorem update_succeeds_iff_204 :
    ∀ (st : Nat) (id : String) (u : Models.User) (g : Models.Group),
      ((KeycloakService.UpdateUser (mockStatus st) ⟨cfg0, "t0"⟩ () id u).2.2.isOk = true
        ↔ st = 204)
      ∧ ((KeycloakService.UpdateGroup (mockStatus st) ⟨cfg0, "t0"⟩ () id g).2.2.isOk = true
        ↔ st = 204)
      ∧ (KeycloakService.UpdateUser (mockStatus 200) ⟨cfg0, "t0"⟩ () id u).2.2.isOk = false
      ∧ (KeycloakService.UpdateGroup (mockStatus 200) ⟨cfg0, "t0"⟩ () id g).2.2.isOk = false := by
  intro st id u g
  have huser : ∀ st' : Nat,
      ((KeycloakService.UpdateUser (mockStatus st') ⟨cfg0, "t0"⟩ () id u).2.2.isOk = true
        ↔ st' = 204) := by
    intro st'
    by_cases h4 : st' = 401
    · subst h4
      simp [KeycloakService.UpdateUser, KeycloakService.doRequest,
        KeycloakService.getAdminToken, mockStatus, unmarshalMap, tokenBody, Except.isOk, Except.toBool]
    · by_cases h2 : st' = 204 <;>
        simp [KeycloakService.UpdateUser, KeycloakService.doRequest,
          KeycloakService.getAdminToken, mockStatus, unmarshalMap, tokenBody,
          Except.isOk, Except.toBool, h4, h2]
  have hgroup : ∀ st' : Nat,
      ((KeycloakService.UpdateGroup (mockStatus st') ⟨cfg0, "t0"⟩ () id g).2.2.isOk = true
        ↔ st' = 204) := by
    intro st'
    by_cases h4 : st' = 401
    · subst h4
      simp [KeycloakService.UpdateGroup, KeycloakService.doRequest,
        KeycloakService.getAdminToken, mockStatus, unmarshalMap, tokenBody, Except.isOk, Except.toBool]
    · by_cases h2 : st' = 204 <;>
        simp [KeycloakService.UpdateGroup, KeycloakService.doRequest,
          KeycloakService.getAdminToken, mockStatus, unmarshalMap, tokenBody,
          Except.isOk, Except.toBool, h4, h2]
  refine ⟨huser st, hgroup st, ?_, ?_⟩
  · have := huser 200
    revert this
    cases (KeycloakService.UpdateUser (mockStatus 200) ⟨cfg0, "t0"⟩ () id u).2.2 <;> simp [Except.isOk, Except.toBool]
  · have := hgroup 200
    revert this
    cases (KeycloakService.UpdateGroup (mockStatus 200) ⟨cfg0, "t0"⟩ () id g).2.2 <;> simp [Except.isOk, Except.toBool]

/-- Witness for C5 at status 200 and concrete inputs: the update is a failure. -/
theorem update_succeeds_iff_204_witness :
    (KeycloakService.UpdateUser (mockStatus 200) ⟨cfg0, "t0"⟩ () "42"
        ⟨"", "johndoe", "john@example.com", "John", "Doe"⟩).2.2.isOk = false :=
  (update_succeeds_iff_204 200 "42" ⟨"", "johndoe", "john@example.com", "John", "Doe"⟩
    ⟨"1", "Admins"⟩).2.2.1

/-- Mock backend answering every request with a fixed status and empty body
(the backend does not echo the created object). -/
def mockCreated (st : Nat) : Client Unit := fun s _ => (s, Except.ok ⟨st, Body.raw ""⟩)

/-- C6: `CreateUser` against a backend answering 201 Created (or 204 No
Content) with an empty body returns the caller's input object unchanged —
identifier included, exactly as submitted. -/
theorem createUser_returns_input :
    ∀ u : Models.User,
      (KeycloakService.CreateUser (mockCreated 201) ⟨cfg0, "t0"⟩ () u).2.2 = Except.ok u
      ∧ (KeycloakService.CreateUser (mockCreated 204) ⟨cfg0, "t0"⟩ () u).2.2 = Except.ok u := by
  intro u
  constructor <;>
    simp [KeycloakService.CreateUser, KeycloakService.doRequest, mockCreated]

@[simp]
theorem decodeUser_encodeUser (u : Models.User) : decodeUser (encodeUser u) = some u := by
  cases u
  rfl

@[simp]
theorem decodeUserList_map_encode (us : List Models.User) :
    decodeUserList (us.map encodeUser) = some us := by
  induction us with
  | nil => rfl
  | cons u rest ih => simp [decodeUserList, ih]

/-- Mock backend for the membership-by-email flow: GETs (the email search)
answer 200 with the encoded user list, PUTs (the membership call) answer 204,
anything else 400; every request is recorded. -/
def mockSearch (users : List Models.User) : Client (List HttpRequest) := fun s req =>
  if req.method = "GET" then
    (s ++ [req], Except.ok ⟨200, Body.json (Json.arr (users.map encodeUser))⟩)
  else if req.method = "PUT" then (s ++ [req], Except.ok ⟨204, Body.raw ""⟩)
  else (s ++ [req], Except.ok ⟨400, Body.raw ""⟩)

/-- C3: `AddUserToGroupByEmail` fails with the not-found error when the search
returns zero users, fails with the ambiguous-match error and issues no
membership call (no PUT in the trace) when it returns two or more, and with a
sole match delegates to `AddUserToGroup` — the trace is exactly the search GET
followed by a PUT of that user's identifier and the given group identifier. -/
theorem addUserToGroupByEmail_cardinality :
    ∀ (email groupID : String) (users : List Models.User),
      (users = [] →
        (KeycloakService.AddUserToGroupByEmail (mockSearch users) ⟨cfg0, "t0"⟩ []
            email groupID).2.2 = Except.error "no user found with the provided email"
        ∧ ∀ r ∈ (KeycloakService.AddUserToGroupByEmail (mockSearch users) ⟨cfg0, "t0"⟩ []
            email groupID).2.1, r.method ≠ "PUT")
      ∧ (2 ≤ users.length →
        (KeycloakService.AddUserToGroupByEmail (mockSearch users) ⟨cfg0, "t0"⟩ []
            email groupID).2.2 = Except.error "multiple users found with the provided email"
        ∧ ∀ r ∈ (KeycloakService.AddUserToGroupByEmail (mockSearch users) ⟨cfg0, "t0"⟩ []
            email groupID).2.1, r.method ≠ "PUT")
      ∧ (∀ u : Models.User, users = [u] →
        (KeycloakService.AddUserToGroupByEmail (mockSearch users) ⟨cfg0, "t0"⟩ []
            email groupID).2.2 = Except.ok ()
        ∧ (KeycloakService.AddUserToGroupByEmail (mockSearch users) ⟨cfg0, "t0"⟩ []
            email groupID).2.1.map (fun r => (r.method, r.url)) =
          [("GET", cfg0.searchUrl email), ("PUT", cfg0.membershipUrl u.id groupID)]) := by
  intro email groupID users
  refine ⟨?_, ?_, ?_⟩
  · rintro rfl
    refine ⟨?_, ?_⟩ <;>
      simp [KeycloakService.AddUserToGroupByEmail, KeycloakService.SearchUserByEmail,
        KeycloakService.doRequest, mockSearch, unmarshalUsers, decodeUserList]
  · intro h2
    match users, h2 with
    | u1 :: u2 :: rest, _ =>
      refine ⟨?_, ?_⟩ <;>
        simp [KeycloakService.AddUserToGroupByEmail, KeycloakService.SearchUserByEmail,
          KeycloakService.doRequest, mockSearch, unmarshalUsers, decodeUserList]
  · rintro u rfl
    refine ⟨?_, ?_⟩ <;>
      simp [KeycloakService.AddUserToGroupByEmail, KeycloakService.SearchUserByEmail,
        KeycloakService.AddUserToGroup, KeycloakService.doRequest, mockSearch,
        unmarshalUsers, decodeUserList]

/-- Witness for C3 in the sole-match case: the search is followed by exactly
one membership PUT carrying the found user's identifier. -/
theorem addUserToGroupByEmail_cardinality_witness :
    (KeycloakService.AddUserToGroupByEmail
        (mockSearch [⟨"10", "user10", "user10@example.com", "U", "Ten"⟩]) ⟨cfg0, "t0"⟩ []
        "user10@example.com" "1").2.2 = Except.ok ()
    ∧ (KeycloakService.AddUserToGroupByEmail
        (mockSearch [⟨"10", "user10", "user10@example.com", "U", "Ten"⟩]) ⟨cfg0, "t0"⟩ []
        "user10@example.com" "1").2.1.map (fun r => (r.method, r.url)) =
      [("GET", cfg0.searchUrl "user10@example.com"), ("PUT", cfg0.membershipUrl "10" "1")] :=
  (addUserToGroupByEmail_cardinality "user10@example.com" "1"
    [⟨"10", "user10", "user10@example.com", "U", "Ten"⟩]).2.2
    ⟨"10", "user10", "user10@example.com", "U", "Ten"⟩ rfl

@[simp]
theorem decodeGroup_encodeGroup (g : Models.Group) : decodeGroup (encodeGroup g) = some g := by
  cases g
  rfl

@[simp]
theorem decodeGroupList_map_encode (gs : List Models.Group) :
    decodeGroupList (gs.map encodeGroup) = some gs := by
  induction gs with
  | nil => rfl
  | cons g rest ih => simp [decodeGroupList, ih]

/-- Mock backend for the composite listing: the first call (the group listing)
is answered with the two encoded groups, the second call (the first member
fetch) with `uA`, and the third call with `bResp` — either `uB` or a failure;
every request is recorded. -/
def mockGroupsSeq (gA gB : Models.Group) (uA : List Models.User) (bResp : HttpResponse) :
    Client (List HttpRequest) := fun s req =>
  if s.length = 0 then
    (s ++ [req], Except.ok ⟨200, Body.json (Json.arr [encodeGroup gA, encodeGroup gB])⟩)
  else if s.length = 1 then
    (s ++ [req], Except.ok ⟨200, Body.json (Json.arr (uA.map encodeUser))⟩)
  else (s ++ [req], Except.ok bResp)

/-- C4: `ListGroupsWithUsers` over groups [A, B] fetches the group listing and
then each group's members sequentially in listing order (the trace URLs are
the listing URL, then A's members URL, then B's members URL), pairing each
group with its users in that order; when B's fetch fails it returns an error
naming B's identifier and no partial result containing A's entry. -/
theorem listGroupsWithUsers_order_and_abort :
    ∀ (gA gB : Models.Group) (uA uB : List Models.User),
      (KeycloakService.ListGroupsWithUsers
          (mockGroupsSeq gA gB uA ⟨200, Body.json (Json.arr (uB.map encodeUser))⟩)
          ⟨cfg0, "t0"⟩ []).2.2 =
        Except.ok [⟨gA, uA⟩, ⟨gB, uB⟩]
      ∧ (KeycloakService.ListGroupsWithUsers
          (mockGroupsSeq gA gB uA ⟨200, Body.json (Json.arr (uB.map encodeUser))⟩)
          ⟨cfg0, "t0"⟩ []).2.1.map (fun r => r.url) =
        [cfg0.groupsUrl, cfg0.groupMembersUrl gA.id, cfg0.groupMembersUrl gB.id]
      ∧ (KeycloakService.ListGroupsWithUsers
          (mockGroupsSeq gA gB uA ⟨500, Body.raw "boom"⟩) ⟨cfg0, "t0"⟩ []).2.2 =
        Except.error ("failed to get users for group " ++ gB.id ++ ": " ++
          "failed to list group users: status 500, unable to parse error")
      ∧ (KeycloakService.ListGroupsWithUsers
          (mockGroupsSeq gA gB uA ⟨500, Body.raw "boom"⟩) ⟨cfg0, "t0"⟩ []).2.1.map
          (fun r => r.url) =
        [cfg0.groupsUrl, cfg0.groupMembersUrl gA.id, cfg0.groupMembersUrl gB.id] := by
  intro gA gB uA uB
  refine ⟨?_, ?_, ?_, ?_⟩ <;>
    simp [KeycloakService.ListGroupsWithUsers, KeycloakService.ListGroups,
      KeycloakService.ListGroupUsers, KeycloakService.groupsWithUsersLoop,
      KeycloakService.doRequest, mockGroupsSeq, unmarshalGroups, unmarshalUsers,
      unmarshalMap, decodeGroupList]
  rfl

/-- Mock backend answering every request with status 500 and the given body. -/
def mock500 (b : Body) : Client Unit := fun s _ => (s, Except.ok ⟨500, b⟩)

/-- Counterexample to C7: `GetUser` receiving a 500 whose body is the JSON
object `{"errorMessage":"boom"}` does not surface a structured backend error —
it returns the status-only message, the same one it returns for a body that is
not JSON at all. -/
theorem getUser_ignores_error_body :
    (KeycloakService.GetUser
        (mock500 (Body.json (Json.obj [("errorMessage", Json.str "boom")])))
        ⟨cfg0, "t0"⟩ () "u1").2.2 = Except.error "user not found, status: 500"
    ∧ (KeycloakService.GetUser (mock500 (Body.raw "not json")) ⟨cfg0, "t0"⟩ () "u1").2.2 =
      Except.error "user not found, status: 500" := by
  constructor <;> rfl

/-- C7 as amended: only the list/search operations surface a parseable JSON
object error body as a structured backend error and fall back to a generic
status-only error otherwise (a JSON body that is not an object, such as an
array, also takes the generic branch); the get operations return a status-only
error without reading the body; create/update/delete operations interpolate
the raw body text into the message without parsing it. -/
theorem error_surfacing_by_operation :
    ∀ (objBody : List (String × Json)) (rawBody id : String) (u : Models.User)
      (elems : List Json),
      (KeycloakService.ListUsers (mock500 (Body.json (Json.obj objBody)))
          ⟨cfg0, "t0"⟩ ()).2.2 =
        Except.error ("failed to list users: " ++ goFmtV (Json.obj objBody))
      ∧ (KeycloakService.ListUsers (mock500 (Body.raw rawBody)) ⟨cfg0, "t0"⟩ ()).2.2 =
        Except.error "failed to list users: status 500, unable to parse error"
      ∧ (KeycloakService.ListUsers (mock500 (Body.json (Json.arr elems)))
          ⟨cfg0, "t0"⟩ ()).2.2 =
        Except.error "failed to list users: status 500, unable to parse error"
      ∧ (KeycloakService.GetUser (mock500 (Body.json (Json.obj objBody)))
          ⟨cfg0, "t0"⟩ () id).2.2 =
        Except.error "user not found, status: 500"
      ∧ (KeycloakService.CreateUser (mock500 (Body.json (Json.obj objBody)))
          ⟨cfg0, "t0"⟩ () u).2.2 =
        Except.error ("failed to create user, status: 500, response: " ++
          jsonText (Json.obj objBody)) := by
  intro objBody rawBody id u elems
  refine ⟨?_, ?_, ?_, ?_, ?_⟩ <;>
    simp [KeycloakService.ListUsers, KeycloakService.GetUser, KeycloakService.CreateUser,
      KeycloakService.doRequest, mock500, unmarshalMap, unmarshalUsers, Body.text] <;>
    rfl

/-- Mock backend failing every call at the transport level with message `e`. -/
def errClient (e : String) : Client Unit := fun s _ => (s, Except.error e)

/-- Counterexample to C8: on the get-user endpoint a transport failure is
answered with HTTP 404, not 500 as the claim states. -/
theorem getUser_handler_transport_404 :
    (UserHandler.GetUser (errClient "dial tcp: connection refused")
        ⟨cfg0, "t0"⟩ () "u1").2.2.1 = 404
    ∧ (UserHandler.GetUser (errClient "dial tcp: connection refused")
        ⟨cfg0, "t0"⟩ () "u1").2.2.1 ≠ 500 := by
  constructor
  · rfl
  · decide

/-- C8 as amended: every service error propagates to the boundary unchanged,
and the handlers map it to a status by endpoint rather than by error kind —
the get-user and get-group handlers answer 404 for every service error,
transport failures included; the list-users, create-user and search handlers
answer 500 for every service error; only the membership-by-email handler
distinguishes cases, answering 404 when the email search matches no user, 400
when it matches several, 400 for a missing email or group path parameter (as
the search handler does for a missing email query parameter), and 500 for
search or membership-call failures. -/
theorem handler_status_by_endpoint :
    ∀ (e id : String) (u u1 u2 : Models.User) (rest : List Models.User),
      (UserHandler.GetUser (errClient e) ⟨cfg0, "t0"⟩ () id).2.2 = (404, HOut.errMsg e)
      ∧ (GroupHandler.GetGroup (errClient e) ⟨cfg0, "t0"⟩ () id).2.2 = (404, HOut.errMsg e)
      ∧ (UserHandler.ListUsers (errClient e) ⟨cfg0, "t0"⟩ ()).2.2 = (500, HOut.errMsg e)
      ∧ (UserHandler.CreateUser (errClient e) ⟨cfg0, "t0"⟩ () u).2.2 = (500, HOut.errMsg e)
      ∧ (UserHandler.SearchUserByEmail (errClient e) ⟨cfg0, "t0"⟩ ()
          "john@example.com").2.2 = (500, HOut.errMsg e)
      ∧ (UserHandler.SearchUserByEmail (errClient e) ⟨cfg0, "t0"⟩ () "").2.2 =
          (400, HOut.errMsg "email query parameter is required")
      ∧ (MembershipHandler.AddUserToGroupByEmail (errClient e) ⟨cfg0, "t0"⟩ ()
          "john@example.com" "g1").2.2 = (500, HOut.errMsg e)
      ∧ (MembershipHandler.AddUserToGroupByEmail (errClient e) ⟨cfg0, "t0"⟩ ()
          "" "g1").2.2 = (400, HOut.errMsg "email and groupId are required")
      ∧ (MembershipHandler.AddUserToGroupByEmail (mockSearch []) ⟨cfg0, "t0"⟩ []
          "john@example.com" "g1").2.2 =
          (404, HOut.errMsg "no user found with the provided email")
      ∧ (MembershipHandler.AddUserToGroupByEmail (mockSearch (u1 :: u2 :: rest))
          ⟨cfg0, "t0"⟩ [] "john@example.com" "g1").2.2 =
          (400, HOut.errMsg "multiple users found with the provided email")
      ∧ (MembershipHandler.AddUserToGroupByEmail (mockSearch [u]) ⟨cfg0, "t0"⟩ []
          "john@example.com" "g1").2.2 = (204, HOut.nilOut) := by
  intro e id u u1 u2 rest
  refine ⟨?_, ?_, ?_, ?_, ?_, ?_, ?_, ?_, ?_, ?_, ?_⟩ <;>
    simp [UserHandler.GetUser, GroupHandler.GetGroup, UserHandler.ListUsers,
      UserHandler.CreateUser, UserHandler.SearchUserByEmail,
      MembershipHandler.AddUserToGroupByEmail, KeycloakService.GetUser,
      KeycloakService.GetGroup, KeycloakService.ListUsers, KeycloakService.CreateUser,
      KeycloakService.SearchUserByEmail, KeycloakService.AddUserToGroup,
      KeycloakService.doRequest, errClient, mockSearch, unmarshalUsers, decodeUserList]
